import Mathlib

/-!
Verification of the smart-tiles web application core (src/app.py) against its
natural-language specification.

The embedding models the three SQLite tables (`users`, `password_reset_tokens`,
`energy_data`) as lists of rows in insertion order, and each Flask handler's
database-touching logic as a pure function from a `DB` state (plus the request
inputs) to a result and a new `DB` state.  Machine reals (`force`,
`displacement`, `energy_generated`) are modelled as rationals; timestamps as
integers (seconds).  Werkzeug's salted password hash is modelled abstractly by
a wrapper that remembers the hashed password, so that
`check_password_hash (generate_password_hash p) q` holds exactly when `p = q`
(collisions are negligible and outside the model).

Python string truthiness (`if not s`) is modelled as `s.length = 0`, which is
equivalent for strings.
-/

/-- Abstract model of a werkzeug salted password hash: the hash determines
verification outcomes, so we record the password it was derived from. -/
structure PasswordHash where
  pw : String
deriving DecidableEq

/-- Model of `werkzeug.security.generate_password_hash`. -/
def generate_password_hash (password : String) : PasswordHash :=
  ⟨password⟩

/-- Model of `werkzeug.security.check_password_hash`. -/
def check_password_hash (h : PasswordHash) (password : String) : Bool :=
  h.pw == password

/-- One row of the `users` table (app.py `init_db`, lines 41-50). -/
structure User where
  id : Nat
  username : String
  email : String
  password_hash : PasswordHash
  last_login : Option Int
deriving DecidableEq

/-- One row of the `password_reset_tokens` table (app.py lines 52-61). -/
structure ResetTokenRow where
  email : String
  token : String
  expires_at : Int
  used : Bool
deriving DecidableEq

/-- One row of the `energy_data` table (app.py lines 64-75). -/
structure EnergyRow where
  id : Nat
  user_id : Nat
  timestamp : Int
  footsteps : Nat
  force : Rat
  displacement : Rat
  energy_generated : Rat
deriving DecidableEq

/-- The whole SQLite database.  Lists are kept in insertion (rowid) order;
`next_user_id` and `next_energy_id` model the AUTOINCREMENT counters. -/
structure DB where
  users : List User
  next_user_id : Nat
  tokens : List ResetTokenRow
  energy_data : List EnergyRow
  next_energy_id : Nat
deriving DecidableEq

/-- A freshly initialised database (`init_db`). -/
def emptyDB : DB :=
  { users := [], next_user_id := 1, tokens := [], energy_data := [], next_energy_id := 1 }

/-- Rows of `energy_data` belonging to one user
(`... FROM energy_data WHERE user_id = ?`). -/
def user_events (db : DB) (uid : Nat) : List EnergyRow :=
  db.energy_data.filter (fun e => e.user_id == uid)

/-- The `footsteps` column of a user's events, in insertion order. -/
def user_seqs (db : DB) (uid : Nat) : List Nat :=
  (user_events db uid).map (fun e => e.footsteps)

/-- Fold computing `COALESCE(MAX(-), 0)` over a list of naturals. -/
def maxSeq (l : List Nat) : Nat :=
  l.foldl max 0

/-- `SELECT COALESCE(MAX(footsteps), 0) FROM energy_data WHERE user_id = ?`
(app.py lines 592-596). -/
def maxFootsteps (l : List EnergyRow) : Nat :=
  maxSeq (l.map (fun e => e.footsteps))

/-- Floor of a rational as an integer (denominators are positive, so
floored division of numerator by denominator). -/
def ratFloor (q : Rat) : Int :=
  q.num.fdiv q.den

/-- Python 3 `round` to an integer: round-half-to-even. -/
def pyRoundInt (q : Rat) : Int :=
  let f := ratFloor q
  let frac := q - (f : Rat)
  if frac < (1 : Rat) / 2 then f
  else if (1 : Rat) / 2 < frac then f + 1
  else if f % 2 = 0 then f else f + 1

/-- Python 3 `round(q, nd)` on the rational model. -/
def pyRound (q : Rat) (nd : Nat) : Rat :=
  ((pyRoundInt (q * (10 : Rat) ^ nd) : Int) : Rat) / (10 : Rat) ^ nd

/-- `SUM(x)` SQL aggregate: `NULL` on an empty relation. -/
def sqlSum (l : List Rat) : Option Rat :=
  if l = [] then none else some l.sum

/-- `AVG(x)` SQL aggregate: `NULL` on an empty relation. -/
def sqlAvg (l : List Rat) : Option Rat :=
  if l = [] then none else some (l.sum / (l.length : Rat))

/-- `MAX(x)` SQL aggregate: `NULL` on an empty relation. -/
def sqlMax (l : List Rat) : Option Rat :=
  match l with
  | [] => none
  | x :: xs => some (xs.foldl max x)

/-- `MIN(x)` SQL aggregate: `NULL` on an empty relation. -/
def sqlMin (l : List Rat) : Option Rat :=
  match l with
  | [] => none
  | x :: xs => some (xs.foldl min x)

/-- Python `str.lower()`: character-wise lower-casing. -/
def pyLower (s : String) : String :=
  ⟨s.data.map Char.toLower⟩

/-- Python `str.strip()`: drop leading and trailing whitespace. -/
def pyStrip (s : String) : String :=
  ⟨(((s.data.dropWhile Char.isWhitespace).reverse).dropWhile Char.isWhitespace).reverse⟩

/-- Result of the POST branch of `register` (app.py lines 103-185). -/
inductive RegisterResult where
  | validationFailed (errors : List String)
  | usernameTaken
  | emailTaken
  | ok (user : User)
deriving DecidableEq

/-- Whether a `RegisterResult` is a form-validation failure. -/
def RegisterResult.isValidationFailed : RegisterResult → Bool
  | .validationFailed _ => true
  | _ => false

/-- POST branch of `register` (app.py lines 103-178): strips the username,
lower-cases the email, collects the four validation errors, checks username
then email uniqueness, and inserts the new row storing a salted hash. -/
def register (db : DB) (usernameIn emailIn password confirm_password : String) :
    RegisterResult × DB :=
  let username := pyStrip usernameIn
  let email := pyLower (pyStrip emailIn)
  let errors :=
    (if username.length < 3 then ["Username must be at least 3 characters long"] else []) ++
    (if email.length = 0 ∨ ¬ email.data.contains '@' then ["Valid email address is required"] else []) ++
    (if password.length < 6 then ["Password must be at least 6 characters long"] else []) ++
    (if password = confirm_password then [] else ["Passwords do not match"])
  if errors = [] then
    match db.users.find? (fun u => u.username == username) with
    | some _ => (.usernameTaken, db)
    | none =>
      match db.users.find? (fun u => u.email == email) with
      | some _ => (.emailTaken, db)
      | none =>
        let newUser : User :=
          { id := db.next_user_id, username := username, email := email,
            password_hash := generate_password_hash password, last_login := none }
        (.ok newUser,
         { db with users := db.users ++ [newUser], next_user_id := db.next_user_id + 1 })
  else
    (.validationFailed errors, db)

/-- Result of the POST branch of `login` (app.py lines 192-232). -/
inductive LoginResult where
  | missingFields
  | invalidCredentials
  | ok (user : User)
deriving DecidableEq

/-- POST branch of `login` (app.py lines 192-232): lower-cases the stripped
identifier, looks the row up by `username = ? OR email = ?`, verifies the hash
and updates `last_login`.  The session identity is built from the row as
fetched (before the `last_login` update), which is what `.ok` carries. -/
def login (db : DB) (identifierIn password : String) (now : Int) :
    LoginResult × DB :=
  let identifier := pyLower (pyStrip identifierIn)
  if identifier.length = 0 ∨ password.length = 0 then (.missingFields, db)
  else
    match db.users.find? (fun u => u.username == identifier || u.email == identifier) with
    | none => (.invalidCredentials, db)
    | some u =>
      if check_password_hash u.password_hash password then
        (.ok u,
         { db with users :=
            db.users.map (fun v => if v.id == u.id then { v with last_login := some now } else v) })
      else (.invalidCredentials, db)

/-- Result of the POST branch of `forgot_password` (app.py lines 243-302).
`done` carries the message flashed to the caller before the redirect to the
login page. -/
inductive ForgotResult where
  | missingEmail
  | done (message : String)
deriving DecidableEq

/-- POST branch of `forgot_password` (app.py lines 243-302): if a user row
matches the lower-cased email, a token row expiring one hour later is
inserted; otherwise nothing is written.  Either way the handler flashes a
message and redirects to login.  The generated random token string is a
parameter (the RNG is external to the model). -/
def forgot_password (db : DB) (emailIn token : String) (now : Int) :
    ForgotResult × DB :=
  let email := pyLower (pyStrip emailIn)
  if email.length = 0 then (.missingEmail, db)
  else
    match db.users.find? (fun u => u.email == email) with
    | some _ =>
      let row : ResetTokenRow :=
        { email := email, token := token, expires_at := now + 3600, used := false }
      (.done "Password reset link has been generated. Check your terminal/console for the link, or check your email if configured.",
       { db with tokens := db.tokens ++ [row] })
    | none =>
      (.done "If an account exists with this email, a reset link has been generated.", db)

/-- Outcome of the token verification at the top of `reset_password`. -/
inductive ValidateResult where
  | notFound
  | alreadyUsed
  | expired
  | valid (email : String)
deriving DecidableEq

/-- Token verification shared by the GET and POST branches of
`reset_password` (app.py lines 316-342): look the row up by token string,
then check `used`, then check `expires_at < now`.  This prefix of the handler
performs only SELECTs, so the state is returned unchanged. -/
def reset_password_validate (db : DB) (token : String) (now : Int) :
    ValidateResult × DB :=
  match db.tokens.find? (fun t => t.token == token) with
  | none => (.notFound, db)
  | some t =>
    if t.used then (.alreadyUsed, db)
    else if t.expires_at < now then (.expired, db)
    else (.valid t.email, db)

/-- Result of `delete_account` (app.py lines 516-553). -/
inductive DeleteResult where
  | missingPassword
  | noSuchUser
  | incorrectPassword
  | deleted
deriving DecidableEq

/-- POST handler `delete_account` (app.py lines 516-553): verifies the
password, then deletes the user's reset tokens (by email) and the user row.
No statement touches `energy_data`: the schema's `ON DELETE CASCADE` clause
(app.py line 73) is inert because `get_db` never issues
`PRAGMA foreign_keys = ON` and SQLite leaves foreign-key enforcement off by
default, so the user's energy rows survive the deletion. -/
def delete_account (db : DB) (uid : Nat) (password : String) :
    DeleteResult × DB :=
  if password.length = 0 then (.missingPassword, db)
  else
    match db.users.find? (fun u => u.id == uid) with
    | none => (.noSuchUser, db)
    | some u =>
      if check_password_hash u.password_hash password then
        (.deleted,
         { db with
            tokens := db.tokens.filter (fun t => ¬ t.email == u.email),
            users := db.users.filter (fun v => ¬ v.id == uid) })
      else (.incorrectPassword, db)

/-- JSON payload returned by a successful `simulate_step`
(app.py lines 623-634).  `displacement_mm` and the energy fields are the
rounded display values (mm and mJ). -/
structure StepData where
  step_number : Nat
  force : Rat
  displacement_mm : Rat
  energy_mj : Rat
  total_steps : Nat
  total_energy_mj : Rat
  avg_energy_mj : Rat
deriving DecidableEq

/-- POST handler `simulate_step` (app.py lines 567-634) with the externally
generated `(force, displacement)` sample and the insertion timestamp as
parameters: computes `energy = force * displacement` once, reads
`COALESCE(MAX(footsteps), 0)` for the user, inserts the row with
`footsteps = max + 1`, and reports the refreshed aggregates. -/
def simulate_step (db : DB) (uid : Nat) (force displacement : Rat) (ts : Int) :
    StepData × DB :=
  let energy_generated := force * displacement
  let current_steps := maxFootsteps (user_events db uid)
  let new_step_count := current_steps + 1
  let row : EnergyRow :=
    { id := db.next_energy_id, user_id := uid, timestamp := ts,
      footsteps := new_step_count, force := force, displacement := displacement,
      energy_generated := energy_generated }
  let db' : DB :=
    { db with energy_data := db.energy_data ++ [row],
              next_energy_id := db.next_energy_id + 1 }
  let energies := (user_events db' uid).map (fun e => e.energy_generated)
  let avg := (sqlAvg energies).getD 0
  ({ step_number := new_step_count,
     force := pyRound force 2,
     displacement_mm := pyRound (displacement * 1000) 3,
     energy_mj := pyRound (energy_generated * 1000) 2,
     total_steps := energies.length,
     total_energy_mj := pyRound ((sqlSum energies).getD 0 * 1000) 2,
     avg_energy_mj := if avg = 0 then 0 else pyRound (avg * 1000) 2 },
   db')

/-- Stable insertion of a row into a list already ordered by `timestamp`,
keeping existing rows with the same timestamp first. -/
def insertByTs (e : EnergyRow) : List EnergyRow → List EnergyRow
  | [] => [e]
  | x :: xs => if x.timestamp ≤ e.timestamp then x :: insertByTs e xs else e :: x :: xs

/-- `ORDER BY timestamp ASC` as a stable sort of the insertion-ordered rows
(SQLite scans the `(user_id, timestamp)` index, so ties keep rowid order). -/
def orderByTimestamp : List EnergyRow → List EnergyRow
  | [] => []
  | e :: rest => insertByTs e (orderByTimestamp rest)

/-- Python `l[-n:]`. -/
def takeLast (n : Nat) (l : List EnergyRow) : List EnergyRow :=
  l.drop (l.length - n)

/-- One entry of `recent_records` (app.py lines 699-706): display-rounded
projection of a row. -/
structure RecordView where
  id : Nat
  step : Nat
  time : Int
  force : Rat
  displacement_mm : Rat
  energy_mj : Rat
deriving DecidableEq

/-- The `statistics` object of `get_energy_data` (app.py lines 710-717),
display values in millijoules (plus watt-hours). -/
structure EnergyStats where
  total_steps : Nat
  total_energy : Rat
  avg_energy : Rat
  max_energy : Rat
  min_energy : Rat
  total_energy_wh : Rat
deriving DecidableEq

/-- The full JSON payload of `get_energy_data`. -/
structure EnergyDataResponse where
  statistics : EnergyStats
  chart_labels : List String
  chart_energy : List Rat
  recent_records : List RecordView
deriving DecidableEq

/-- GET handler `get_energy_data` (app.py lines 642-726): fetches the user's
rows `ORDER BY timestamp ASC LIMIT ?`, computes the SQL aggregates over all
of the user's rows, builds chart data from the fetched window, and returns
the last 10 fetched rows reversed as `recent_records`. -/
def get_energy_data (db : DB) (uid : Nat) (limit : Nat) : EnergyDataResponse :=
  let all_records := (orderByTimestamp (user_events db uid)).take limit
  let energies := (user_events db uid).map (fun e => e.energy_generated)
  let stats : EnergyStats :=
    { total_steps := energies.length,
      total_energy := pyRound ((sqlSum energies).getD 0 * 1000) 2,
      avg_energy := pyRound ((sqlAvg energies).getD 0 * 1000) 2,
      max_energy := pyRound ((sqlMax energies).getD 0 * 1000) 2,
      min_energy := pyRound ((sqlMin energies).getD 0 * 1000) 2,
      total_energy_wh := pyRound ((sqlSum energies).getD 0 / ((18 : Rat) / 5)) 4 }
  { statistics := stats,
    chart_labels := all_records.map (fun r => "Step " ++ toString r.footsteps),
    chart_energy := all_records.map (fun r => pyRound (r.energy_generated * 1000) 2),
    recent_records :=
      ((takeLast 10 all_records).reverse).map (fun r =>
        { id := r.id, step := r.footsteps, time := r.timestamp,
          force := pyRound r.force 2,
          displacement_mm := pyRound (r.displacement * 1000) 3,
          energy_mj := pyRound (r.energy_generated * 1000) 2 }) }

/-- POST handler `clear_data` (app.py lines 728-766): counts the user's rows,
deletes them all, and reports the count.  The AUTOINCREMENT counter is not
reset. -/
def clear_data (db : DB) (uid : Nat) : Nat × DB :=
  let count_before := (user_events db uid).length
  (count_before,
   { db with energy_data := db.energy_data.filter (fun e => ¬ e.user_id == uid) })

/-- Inputs of one `simulate_step` call: the externally generated sample and
the insertion timestamp. -/
structure StepInput where
  force : Rat
  displacement : Rat
  ts : Int
deriving DecidableEq

/-- Run a sequence of `simulate_step` calls for one user. -/
def run_steps (db : DB) (uid : Nat) : List StepInput → DB
  | [] => db
  | i :: rest => run_steps (simulate_step db uid i.force i.displacement i.ts).2 uid rest

/-- One ledger operation in a history of appends and clears. -/
inductive LedgerOp where
  | step (force displacement : Rat) (ts : Int)
  | clear
deriving DecidableEq

/-- Apply one ledger operation for a user. -/
def applyLedgerOp (db : DB) (uid : Nat) : LedgerOp → DB
  | .step f d ts => (simulate_step db uid f d ts).2
  | .clear => (clear_data db uid).2

/-- Run a history of appends and clears for one user. -/
def runLedger (db : DB) (uid : Nat) : List LedgerOp → DB
  | [] => db
  | op :: rest => runLedger (applyLedgerOp db uid op) uid rest

theorem user_events_simulate_step (db : DB) (uid : Nat) (f d : Rat) (ts : Int) :
    user_events (simulate_step db uid f d ts).2 uid
      = user_events db uid ++
        [{ id := db.next_energy_id, user_id := uid, timestamp := ts,
           footsteps := maxFootsteps (user_events db uid) + 1,
           force := f, displacement := d, energy_generated := f * d }] := by
  simp [user_events, simulate_step, List.filter_append]

theorem user_seqs_simulate_step (db : DB) (uid : Nat) (f d : Rat) (ts : Int) :
    user_seqs (simulate_step db uid f d ts).2 uid
      = user_seqs db uid ++ [maxFootsteps (user_events db uid) + 1] := by
  simp [user_seqs, user_events_simulate_step]

theorem maxSeq_append (l : List Nat) (x : Nat) :
    maxSeq (l ++ [x]) = max (maxSeq l) x := by
  simp [maxSeq, List.foldl_append]

theorem maxSeq_range' (k : Nat) : maxSeq (List.range' 1 k) = k := by
  induction k with
  | zero => rfl
  | succ n ih =>
      rw [List.range'_concat, maxSeq_append, ih]
      omega

theorem run_steps_seqs (uid : Nat) (inputs : List StepInput) :
    ∀ db k, user_seqs db uid = List.range' 1 k →
      user_seqs (run_steps db uid inputs) uid = List.range' 1 (k + inputs.length) := by
  induction inputs with
  | nil => intro db k h; simpa [run_steps] using h
  | cons i rest ih =>
      intro db k h
      have hmax : maxFootsteps (user_events db uid) = k := by
        show maxSeq (user_seqs db uid) = k
        rw [h, maxSeq_range']
      have hstep : user_seqs (simulate_step db uid i.force i.displacement i.ts).2 uid
          = List.range' 1 (k + 1) := by
        rw [user_seqs_simulate_step, hmax, h, List.range'_concat]
        norm_num [Nat.add_comm]
      have hrest := ih _ (k + 1) hstep
      have hlen : k + 1 + rest.length = k + (i :: rest).length := by
        simp; omega
      rw [show run_steps db uid (i :: rest)
            = run_steps (simulate_step db uid i.force i.displacement i.ts).2 uid rest from rfl,
          hrest, hlen]

/-- C1: starting from a state with no events for user `u`, every sequence of
successful `simulate_step` calls for `u` assigns `footsteps` values that are
exactly `1, 2, …, N` where `N` is the number of calls: each new event gets
`footsteps = COALESCE(MAX(footsteps), 0) + 1`, so there are no duplicates and
no gaps. -/
theorem c1_sequence_values_exact (db : DB) (uid : Nat) (inputs : List StepInput)
    (h : user_events db uid = []) :
    user_seqs (run_steps db uid inputs) uid = List.range' 1 inputs.length := by
  have h0 : user_seqs db uid = List.range' 1 0 := by simp [user_seqs, h]
  simpa using run_steps_seqs uid inputs db 0 h0

/-- C1 witness: two concrete steps from the fresh database yield footsteps
`[1, 2]`. -/
theorem c1_sequence_values_exact_witness :
    user_events emptyDB 1 = [] ∧
    user_seqs (run_steps emptyDB 1 [⟨600, 3/1000, 0⟩, ⟨500, 1/250, 5⟩]) 1
      = List.range' 1 2 :=
  ⟨rfl, c1_sequence_values_exact emptyDB 1 [⟨600, 3/1000, 0⟩, ⟨500, 1/250, 5⟩] rfl⟩

theorem user_events_clear (db : DB) (uid : Nat) :
    user_events (clear_data db uid).2 uid = [] := by
  simp only [user_events, clear_data, List.filter_filter]
  have : ∀ e : EnergyRow, ((e.user_id == uid) && ! (e.user_id == uid)) = false := by
    intro e; cases e.user_id == uid <;> rfl
  simp [this]

/-- C6: for any prior history, `clear_data` reports the number of the user's
rows (all of which it deletes), and the next `simulate_step` for that user is
assigned `footsteps = 1` again. -/
theorem c6_clear_then_step_restarts (db : DB) (uid : Nat) (f d : Rat) (ts : Int) :
    (clear_data db uid).1 = (user_events db uid).length ∧
    user_events (clear_data db uid).2 uid = [] ∧
    (simulate_step (clear_data db uid).2 uid f d ts).1.step_number = 1 ∧
    user_seqs (simulate_step (clear_data db uid).2 uid f d ts).2 uid = [1] := by
  refine ⟨rfl, user_events_clear db uid, ?_, ?_⟩
  · show maxFootsteps (user_events (clear_data db uid).2 uid) + 1 = 1
    rw [user_events_clear]
    rfl
  · rw [user_seqs_simulate_step, user_events_clear]
    simp [user_seqs, user_events_clear, maxFootsteps, maxSeq]

theorem sqlSum_getD (l : List Rat) : (sqlSum l).getD 0 = l.sum := by
  by_cases h : l = [] <;> simp [sqlSum, h]

theorem pyRound_zero (nd : Nat) : pyRound 0 nd = 0 := by
  simp [pyRound, pyRoundInt, ratFloor]

theorem ratFloor_intCast (m : Int) : ratFloor (m : Rat) = m := by
  simp [ratFloor, Int.fdiv_one]

theorem pyRoundInt_intCast (m : Int) : pyRoundInt (m : Rat) = m := by
  have h : ((m : Rat) - (m : Rat)) < (1 : Rat) / 2 := by norm_num
  simp only [pyRoundInt, ratFloor_intCast]
  rw [if_pos h]

theorem pyRound_eq_self (q : Rat) (nd : Nat) (m : Int)
    (h : q * (10 : Rat) ^ nd = (m : Rat)) : pyRound q nd = q := by
  have h10 : ((10 : Rat) ^ nd) ≠ 0 := by positivity
  rw [pyRound, h, pyRoundInt_intCast, div_eq_iff h10]
  exact h.symm

/-- C7: for every history of appends and clears, the reported total energy is
the canonical joule-level sum over the user's current events, converted to
display millijoules exactly once at output; the reported step count is the
number of current events; and with zero events the reported average, maximum
and minimum are 0 rather than an error. -/
theorem c7_totals_from_joules (uid : Nat) (ops : List LedgerOp) (limit : Nat) :
    (get_energy_data (runLedger emptyDB uid ops) uid limit).statistics.total_energy
      = pyRound
          ((((user_events (runLedger emptyDB uid ops) uid).map
              (fun e => e.energy_generated)).sum) * 1000) 2 ∧
    (get_energy_data (runLedger emptyDB uid ops) uid limit).statistics.total_steps
      = (user_events (runLedger emptyDB uid ops) uid).length ∧
    (user_events (runLedger emptyDB uid ops) uid = [] →
      (get_energy_data (runLedger emptyDB uid ops) uid limit).statistics.avg_energy = 0 ∧
      (get_energy_data (runLedger emptyDB uid ops) uid limit).statistics.max_energy = 0 ∧
      (get_energy_data (runLedger emptyDB uid ops) uid limit).statistics.min_energy = 0) := by
  refine ⟨?_, ?_, ?_⟩
  · simp [get_energy_data, sqlSum_getD]
  · simp [get_energy_data]
  · intro h
    refine ⟨?_, ?_, ?_⟩ <;>
      simp [get_energy_data, h, sqlAvg, sqlMax, sqlMin, pyRound_zero]

/-- C7 witness: the empty history has zero events and all reported statistics
are zero. -/
theorem c7_totals_from_joules_witness :
    user_events (runLedger emptyDB 1 []) 1 = [] ∧
    (get_energy_data (runLedger emptyDB 1 []) 1 50).statistics.total_energy
      = pyRound
          ((((user_events (runLedger emptyDB 1 []) 1).map
              (fun e => e.energy_generated)).sum) * 1000) 2 ∧
    (get_energy_data (runLedger emptyDB 1 []) 1 50).statistics.avg_energy = 0 ∧
    (get_energy_data (runLedger emptyDB 1 []) 1 50).statistics.max_energy = 0 ∧
    (get_energy_data (runLedger emptyDB 1 []) 1 50).statistics.min_energy = 0 := by
  refine ⟨rfl, (c7_totals_from_joules 1 [] 50).1, ?_⟩
  exact (c7_totals_from_joules 1 [] 50).2.2 rfl

/-- C8: `simulate_step` stores `energy = force * displacement`, computed once
at insertion (the stored energy column of the new row is exactly the product);
in the concrete scenario `force = 600`, `displacement = 0.003` the stored
energy is `1.8 J`, and the statistics after that single call report one step
with a joule-level total and average of `1.8` (displayed as `1800 mJ`). -/
theorem c8_energy_is_force_times_displacement :
    (∀ db uid f d ts,
      (simulate_step db uid f d ts).2.energy_data.map (fun e => e.energy_generated)
        = db.energy_data.map (fun e => e.energy_generated) ++ [f * d]) ∧
    (simulate_step emptyDB 1 600 (3/1000) 0).2.energy_data.map (fun e => e.energy_generated)
      = [9/5] ∧
    (get_energy_data (simulate_step emptyDB 1 600 (3/1000) 0).2 1 50).statistics.total_steps = 1 ∧
    ((user_events (simulate_step emptyDB 1 600 (3/1000) 0).2 1).map
        (fun e => e.energy_generated)).sum = 9/5 ∧
    (sqlAvg ((user_events (simulate_step emptyDB 1 600 (3/1000) 0).2 1).map
        (fun e => e.energy_generated))).getD 0 = 9/5 ∧
    (get_energy_data (simulate_step emptyDB 1 600 (3/1000) 0).2 1 50).statistics.total_energy
      = 1800 ∧
    (get_energy_data (simulate_step emptyDB 1 600 (3/1000) 0).2 1 50).statistics.avg_energy
      = 1800 := by
  have hq : (600 : Rat) * (3/1000) = 9/5 := by norm_num
  have hev1 : user_events (simulate_step emptyDB 1 600 (3/1000) 0).2 1
      = [{ id := 1, user_id := 1, timestamp := 0, footsteps := 1,
           force := 600, displacement := 3/1000, energy_generated := 600 * (3/1000) }] := by
    rw [user_events_simulate_step]
    rfl
  have hE : (user_events (simulate_step emptyDB 1 600 (3/1000) 0).2 1).map
      (fun e => e.energy_generated) = [(9 : Rat)/5] := by
    rw [hev1]
    simp [hq]
  refine ⟨fun db uid f d ts => by simp [simulate_step], ?_, ?_, ?_, ?_, ?_, ?_⟩
  · show [(600 : Rat) * (3/1000)] = [9/5]
    rw [hq]
  · rfl
  · rw [hE]
    simp
  · rw [hE]
    norm_num [sqlAvg]
  · show pyRound
        ((sqlSum ((user_events (simulate_step emptyDB 1 600 (3/1000) 0).2 1).map
          (fun e => e.energy_generated))).getD 0 * 1000) 2 = 1800
    rw [hE]
    have hval : (sqlSum [(9 : Rat)/5]).getD 0 * 1000 = 1800 := by norm_num [sqlSum]
    rw [hval]
    exact pyRound_eq_self 1800 2 180000 (by norm_num)
  · show pyRound
        ((sqlAvg ((user_events (simulate_step emptyDB 1 600 (3/1000) 0).2 1).map
          (fun e => e.energy_generated))).getD 0 * 1000) 2 = 1800
    rw [hE]
    have hval : (sqlAvg [(9 : Rat)/5]).getD 0 * 1000 = 1800 := by norm_num [sqlAvg]
    rw [hval]
    exact pyRound_eq_self 1800 2 180000 (by norm_num)

/-- Database with one registered user `alice` (id 1), one outstanding reset
token for her email, and one energy event of hers. -/
def c2db : DB :=
  { users := [{ id := 1, username := "alice", email := "a@x.com",
                password_hash := generate_password_hash "secret1", last_login := none }],
    next_user_id := 2,
    tokens := [{ email := "a@x.com", token := "tok1", expires_at := 3600, used := false }],
    energy_data := [{ id := 1, user_id := 1, timestamp := 0, footsteps := 1,
                      force := 600, displacement := 3/1000, energy_generated := 9/5 }],
    next_energy_id := 2 }

/-- C2: a successful `delete_account` with the correct password removes the
user row and her reset tokens but leaves her `energy_data` rows untouched
(the schema's `ON DELETE CASCADE` never fires because SQLite foreign-key
enforcement is off by default and `get_db` never enables it), so a state with
the identity gone but its energy events still present is observable —
contradicting the claim. -/
theorem c2_delete_account_leaves_energy_rows :
    (delete_account c2db 1 "secret1").1 = .deleted ∧
    (delete_account c2db 1 "secret1").2.users = [] ∧
    (delete_account c2db 1 "secret1").2.tokens = [] ∧
    (delete_account c2db 1 "secret1").2.energy_data = c2db.energy_data ∧
    c2db.energy_data ≠ [] :=
  ⟨rfl, rfl, rfl, rfl, by decide⟩

/-- User 1 with three events, sequence numbers 1, 2, 3, inserted with
increasing timestamps 10, 20, 30. -/
def c3db : DB :=
  { users := [{ id := 1, username := "alice", email := "a@x.com",
                password_hash := generate_password_hash "secret1", last_login := none }],
    next_user_id := 2, tokens := [],
    energy_data :=
      [ { id := 1, user_id := 1, timestamp := 10, footsteps := 1,
          force := 600, displacement := 3/1000, energy_generated := 9/5 },
        { id := 2, user_id := 1, timestamp := 20, footsteps := 2,
          force := 500, displacement := 1/250, energy_generated := 2 },
        { id := 3, user_id := 1, timestamp := 30, footsteps := 3,
          force := 700, displacement := 1/500, energy_generated := 7/5 } ],
    next_energy_id := 4 }

/-- User 1 with two events whose wall-clock timestamps are skewed against the
sequence numbers: sequence 1 at time 100, sequence 2 at time 50. -/
def c3skewdb : DB :=
  { users := [{ id := 1, username := "alice", email := "a@x.com",
                password_hash := generate_password_hash "secret1", last_login := none }],
    next_user_id := 2, tokens := [],
    energy_data :=
      [ { id := 1, user_id := 1, timestamp := 100, footsteps := 1,
          force := 600, displacement := 3/1000, energy_generated := 9/5 },
        { id := 2, user_id := 1, timestamp := 50, footsteps := 2,
          force := 500, displacement := 1/250, energy_generated := 2 } ],
    next_energy_id := 3 }

/-- C3: with three events and `limit = 2`, `get_energy_data` fetches the two
OLDEST rows (`ORDER BY timestamp ASC LIMIT ?`), so `recent_records` is
`[2, 1]` and the highest sequence number 3 is missing, where the claim
requires the two highest-sequence events `[3, 2]`; and under clock skew the
newest-first order follows timestamps, not sequence numbers (`[1, 2]` instead
of `[2, 1]`). -/
theorem c3_get_energy_data_oldest_window :
    (get_energy_data c3db 1 2).recent_records.map (fun r => r.step) = [2, 1] ∧
    3 ∈ user_seqs c3db 1 ∧
    (get_energy_data c3skewdb 1 50).recent_records.map (fun r => r.step) = [1, 2] :=
  ⟨rfl, by decide, rfl⟩

/-- Same database as `c2db` but with no registered users: the email
`a@x.com` is not registered. -/
def c4db_unregistered : DB :=
  { c2db with users := [] }

/-- C4: the caller-visible response of `forgot_password` differs between a
run where the email is registered and an otherwise identical run where it is
not: the two flashed messages are different strings, so the response leaks
whether the email is registered — contradicting the claim (and the handler's
own comment saying it must not reveal whether the email exists). -/
theorem c4_forgot_password_response_differs :
    (forgot_password c2db "a@x.com" "tokN" 0).1 ≠
    (forgot_password c4db_unregistered "a@x.com" "tokN" 0).1 := by
  decide

/-- C5 counterexample: the valid mixed-case username `Alice` registers
successfully, but authenticating with exactly that username and the correct
password fails with invalid credentials, because `login` lower-cases the
identifier (`request.form.get('username').strip().lower()`) while `register`
stored the username case-preserved and the SQL lookup is case-sensitive. -/
theorem c5_mixed_case_counterexample :
    (register emptyDB "Alice" "a@x.com" "secret1" "secret1").1
      = .ok { id := 1, username := "Alice", email := "a@x.com",
              password_hash := generate_password_hash "secret1", last_login := none } ∧
    (login (register emptyDB "Alice" "a@x.com" "secret1" "secret1").2 "Alice" "secret1" 0).1
      = .invalidCredentials := by
  constructor
  · decide
  · decide

/-- C5 (amended): for every username, email and password accepted by
`register` from a fresh database, provided the stripped username is unchanged
by lower-casing, authenticating with that same username and password succeeds
and returns the same identity, and authenticating with that username and a
different non-empty password fails with invalid credentials. -/
theorem c5_register_then_login (usernameIn emailIn password confirm wrong : String)
    (u : User) (now : Int)
    (hreg : (register emptyDB usernameIn emailIn password confirm).1 = .ok u)
    (hlower : pyLower (pyStrip usernameIn) = pyStrip usernameIn)
    (hwrong : wrong ≠ password) (hwlen : wrong.length ≠ 0) :
    (login (register emptyDB usernameIn emailIn password confirm).2 usernameIn password now).1
      = .ok u ∧
    (login (register emptyDB usernameIn emailIn password confirm).2 usernameIn wrong now).1
      = .invalidCredentials := by
  by_cases h1 : (pyStrip usernameIn).length < 3
  case pos => exfalso; simp [register, h1] at hreg
  by_cases h2 : (pyLower (pyStrip emailIn)).length = 0
  case pos => exfalso; simp [register, h1, h2] at hreg
  by_cases h3 : '@' ∈ (pyLower (pyStrip emailIn)).data
  case neg => exfalso; simp [register, h1, h2, h3] at hreg
  by_cases h4 : password.length < 6
  case pos => exfalso; simp [register, h1, h2, h3, h4] at hreg
  by_cases h5 : password = confirm
  case neg => exfalso; simp [register, h1, h2, h3, h4, h5] at hreg
  have h4c : 6 ≤ confirm.length := by rw [← h5]; omega
  have hok : (register emptyDB usernameIn emailIn password confirm).1
      = .ok { id := 1, username := pyStrip usernameIn,
              email := pyLower (pyStrip emailIn),
              password_hash := generate_password_hash password, last_login := none } := by
    simp [register, h1, h2, h3, h4, h4c, h5, emptyDB]
  have hdb : (register emptyDB usernameIn emailIn password confirm).2
      = { users := [{ id := 1, username := pyStrip usernameIn,
                      email := pyLower (pyStrip emailIn),
                      password_hash := generate_password_hash password, last_login := none }],
          next_user_id := 2, tokens := [], energy_data := [], next_energy_id := 1 } := by
    simp [register, h1, h2, h3, h4, h4c, h5, emptyDB]
  have hu : ({ id := 1, username := pyStrip usernameIn,
               email := pyLower (pyStrip emailIn),
               password_hash := generate_password_hash password,
               last_login := none } : User) = u := by
    have h := hok.symm.trans hreg
    injection h
  have hul : ¬((pyStrip usernameIn).length = 0) := by omega
  have hpl : ¬(password.length = 0) := by omega
  constructor
  · rw [hdb, ← hu]
    simp [login, hlower, hul, hpl, check_password_hash, generate_password_hash]
  · have hbe : (password == wrong) = false := beq_eq_false_iff_ne.mpr (Ne.symm hwrong)
    rw [hdb]
    simp [login, hlower, hul, hwlen, check_password_hash, generate_password_hash, hbe]

/-- C5 witness: the all-lower-case scenario from the specification, with the
wrong password `wrong1`. -/
theorem c5_register_then_login_witness :
    (register emptyDB "alice" "a@x.com" "secret1" "secret1").1
      = .ok { id := 1, username := "alice", email := "a@x.com",
              password_hash := generate_password_hash "secret1", last_login := none } ∧
    pyLower (pyStrip "alice") = pyStrip "alice" ∧
    ("wrong1" : String) ≠ "secret1" ∧
    (login (register emptyDB "alice" "a@x.com" "secret1" "secret1").2 "alice" "secret1" 0).1
      = .ok { id := 1, username := "alice", email := "a@x.com",
              password_hash := generate_password_hash "secret1", last_login := none } ∧
    (login (register emptyDB "alice" "a@x.com" "secret1" "secret1").2 "alice" "wrong1" 0).1
      = .invalidCredentials := by
  have main := c5_register_then_login "alice" "a@x.com" "secret1" "secret1" "wrong1"
      { id := 1, username := "alice", email := "a@x.com",
        password_hash := generate_password_hash "secret1", last_login := none } 0
      (by decide) (by decide) (by decide) (by decide)
  exact ⟨by decide, by decide, by decide, main.1, main.2⟩

/-- C9: the token verification of `reset_password` returns `notFound` when no
row carries the token string, `alreadyUsed` whenever the row's `used` flag is
set (checked before expiry), `expired` when the row is unused and
`now > expires_at`, and it leaves the stored state unchanged. -/
theorem c9_validate_order_and_purity (db : DB) (token : String) (now : Int) :
    ((∀ t ∈ db.tokens, t.token ≠ token) →
        (reset_password_validate db token now).1 = .notFound) ∧
    (∀ t, db.tokens.find? (fun r => r.token == token) = some t → t.used = true →
        (reset_password_validate db token now).1 = .alreadyUsed) ∧
    (∀ t, db.tokens.find? (fun r => r.token == token) = some t → t.used = false →
        t.expires_at < now → (reset_password_validate db token now).1 = .expired) ∧
    (reset_password_validate db token now).2 = db := by
  refine ⟨?_, ?_, ?_, ?_⟩
  · intro h
    have hnone : db.tokens.find? (fun r => r.token == token) = none := by
      rw [List.find?_eq_none]
      intro t ht
      simp [h t ht]
    simp [reset_password_validate, hnone]
  · intro t ht hu
    simp [reset_password_validate, ht, hu]
  · intro t ht hu hexp
    simp [reset_password_validate, ht, hu, hexp]
  · rcases hf : db.tokens.find? (fun r => r.token == token) with _ | t
    · simp [reset_password_validate, hf]
    · by_cases hu : t.used <;> by_cases he : t.expires_at < now <;>
        simp [reset_password_validate, hf, hu, he]

/-- Token table for the C9 witness: one used token and one unused token that
expires at time 100. -/
def c9db : DB :=
  { users := [], next_user_id := 1,
    tokens := [ { email := "a@x.com", token := "tokU", expires_at := 1000, used := true },
                { email := "a@x.com", token := "tokE", expires_at := 100, used := false } ],
    energy_data := [], next_energy_id := 1 }

/-- C9 witness: the three outcomes and the unchanged state on concrete
inputs. -/
theorem c9_validate_order_and_purity_witness :
    (reset_password_validate c9db "nope" 0).1 = .notFound ∧
    (reset_password_validate c9db "tokU" 0).1 = .alreadyUsed ∧
    (reset_password_validate c9db "tokE" 200).1 = .expired ∧
    (reset_password_validate c9db "tokE" 200).2 = c9db := by
  refine ⟨(c9_validate_order_and_purity c9db "nope" 0).1 (by decide),
          (c9_validate_order_and_purity c9db "tokU" 0).2.1
            { email := "a@x.com", token := "tokU", expires_at := 1000, used := true }
            (by decide) (by decide),
          (c9_validate_order_and_purity c9db "tokE" 200).2.2.1
            { email := "a@x.com", token := "tokE", expires_at := 100, used := false }
            (by decide) (by decide) (by decide),
          (c9_validate_order_and_purity c9db "tokE" 200).2.2.2⟩

/-- C10: whenever the confirmation password differs from the password,
`register` fails with a validation error and writes nothing, even when the
other fields are well-formed (the statement asks for no constraint on them at
all). -/
theorem c10_confirm_password_mismatch (db : DB)
    (usernameIn emailIn password confirm : String) (h : password ≠ confirm) :
    (register db usernameIn emailIn password confirm).1.isValidationFailed = true ∧
    (register db usernameIn emailIn password confirm).2 = db := by
  constructor <;> simp [register, h, RegisterResult.isValidationFailed]

/-- C10 witness: mismatched confirmation on otherwise valid input. -/
theorem c10_confirm_password_mismatch_witness :
    ("secret1" : String) ≠ "secret2" ∧
    (register emptyDB "alice" "a@x.com" "secret1" "secret2").1.isValidationFailed = true ∧
    (register emptyDB "alice" "a@x.com" "secret1" "secret2").2 = emptyDB := by
  refine ⟨by decide,
          (c10_confirm_password_mismatch emptyDB "alice" "a@x.com" "secret1" "secret2"
            (by decide)).1,
          (c10_confirm_password_mismatch emptyDB "alice" "a@x.com" "secret1" "secret2"
            (by decide)).2⟩
